import Mathlib

/-!
Verification of the OrganizationsManager facade
(src/management/OrganizationsManager.js) of the node-auth0 repository.

The manager is embedded shallowly: JavaScript runtime values are the
inductive type `JSValue`, synchronous throws are `Except`/`MethodOutcome`
errors, and each manager operation is a Lean function from its arguments
to the outcome it produces (a synchronous throw, or the single call it
dispatches to one of the three wrapped rest clients together with the
return style of the call).  The collaborators that are not part of the
repository's sources (the rest-facade Templated Resource Client, the
RetryRestClient decorator and utils.wrapPropertyMethod) are modelled from
the specification; the definitions say so in their doc comments.
-/

namespace NodeAuth0

/-- A JavaScript runtime value, restricted to the shapes the manager
manipulates: undefined, null, booleans, numbers, strings, plain objects
(association lists of fields) and function values (tagged by an id so that
distinct callbacks are distinguishable). -/
inductive JSValue : Type where
  | undef : JSValue
  | null : JSValue
  | bool : Bool → JSValue
  | num : Int → JSValue
  | str : String → JSValue
  | obj : List (String × JSValue) → JSValue
  | fn : Nat → JSValue

/-- An error raised synchronously by the manager: the ArgumentError of
rest-facade used by every validation guard, or the TypeError JavaScript
raises when a property of null/undefined is read. -/
inductive JSError : Type where
  | argumentError : String → JSError
  | typeError : String → JSError
deriving DecidableEq

/-- JavaScript truthiness of a value. -/
def truthy : JSValue → Bool
  | JSValue.undef => false
  | JSValue.null => false
  | JSValue.bool b => b
  | JSValue.num n => n != 0
  | JSValue.str s => s != ("")
  | JSValue.obj _ => true
  | JSValue.fn _ => true

/-- The result of the JavaScript typeof operator. -/
def jsTypeof : JSValue → String
  | JSValue.undef => ("undefined")
  | JSValue.null => ("object")
  | JSValue.bool _ => ("boolean")
  | JSValue.num _ => ("number")
  | JSValue.str _ => ("string")
  | JSValue.obj _ => ("object")
  | JSValue.fn _ => ("function")

/-- Whether a value is a function (the cb instanceof Function test). -/
def isFunction : JSValue → Bool
  | JSValue.fn _ => true
  | _ => false

/-- JavaScript short-circuiting or, as in params = params or-else default. -/
def jsOr (a b : JSValue) : JSValue := if truthy a then a else b

/-- Property read on a value that is known not to be null/undefined: on an
object it is field lookup (undefined when the field is absent), on any
other value it yields undefined (primitives have no own properties here). -/
def objGet : JSValue → String → JSValue
  | JSValue.obj fields, key => (fields.lookup key).getD JSValue.undef
  | _, _ => JSValue.undef

/-- Property read as JavaScript performs it: reading a property of
undefined or null raises a TypeError; otherwise it is `objGet`. -/
def getField (v : JSValue) (key : String) : Except JSError JSValue :=
  match v with
  | JSValue.undef =>
      Except.error (JSError.typeError
        (("Cannot read properties of undefined (reading ") ++ key ++ (")")))
  | JSValue.null =>
      Except.error (JSError.typeError
        (("Cannot read properties of null (reading ") ++ key ++ (")")))
  | v => Except.ok (objGet v key)

/-- The rest-facade client the constructor instantiates for one endpoint:
its fields are exactly the arguments the source passes to the
Auth0RestClient constructor (the endpoint URL split into the supplied
baseUrl and the fixed template suffix, the clientOptions headers, the
fixed repeatParams:false query option, and the token provider). -/
structure Auth0RestClient : Type where
  baseUrl : String
  path : String
  headers : JSValue
  queryRepeatParams : Bool
  tokenProvider : JSValue

/-- The full endpoint URL the source passes: baseUrl concatenated with the
template suffix. -/
def Auth0RestClient.resourceUrl (c : Auth0RestClient) : String :=
  c.baseUrl ++ c.path

/-- The retry decorator wrapping one Auth0RestClient, as instantiated by
the constructor: new RetryRestClient(client, options.retry). -/
structure RetryRestClient : Type where
  restClient : Auth0RestClient
  retryConfig : JSValue

/-- The manager's own state after construction: the three retry-decorated
clients the constructor stores on this. -/
structure OrganizationsManager : Type where
  organizations : RetryRestClient
  connections : RetryRestClient
  members : RetryRestClient

/-- The template suffix of the organization client. -/
def organizationsTemplate : String := ("/organizations/:id")

/-- The template suffix of the enabled-connections client. -/
def enabledConnectionsTemplate : String :=
  ("/organizations/:id/enabled_connections/:connection_id")

/-- The template suffix of the members client. -/
def membersTemplate : String := ("/organizations/:id/members")

/-- The successful tail of the constructor: builds the three
retry-decorated clients from a validated baseUrl string and the remaining
options fields, exactly as lines 42-72 of the source do. -/
def buildManager (base : String) (options : JSValue) : OrganizationsManager :=
  let headers := objGet options ("headers")
  let tokenProvider := objGet options ("tokenProvider")
  let retry := objGet options ("retry")
  let mkClient : String → RetryRestClient := fun p =>
    { restClient :=
        { baseUrl := base, path := p, headers := headers,
          queryRepeatParams := false, tokenProvider := tokenProvider },
      retryConfig := retry }
  { organizations := mkClient organizationsTemplate,
    connections := mkClient enabledConnectionsTemplate,
    members := mkClient membersTemplate }

/-- Whether a value is the JavaScript null (the options === null test). -/
def isNullValue : JSValue → Bool
  | JSValue.null => true
  | _ => false

/-- Whether a value is null or undefined. -/
def isNullOrUndef : JSValue → Bool
  | JSValue.null => true
  | JSValue.undef => true
  | _ => false

/-- The OrganizationsManager constructor (source lines 24-73): the three
validation guards in source order, then the construction of the three
clients.  A thrown ArgumentError is an Except.error. -/
def mkOrganizationsManager (options : JSValue) :
    Except JSError OrganizationsManager :=
  if isNullValue options || !(jsTypeof options == ("object")) then
    Except.error (JSError.argumentError ("Must provide manager options"))
  else
    match getField options ("baseUrl") with
    | Except.error e => Except.error e
    | Except.ok baseUrl =>
      if isNullOrUndef baseUrl then
        Except.error (JSError.argumentError
          ("Must provide a base URL for the API"))
      else
        match baseUrl with
        | JSValue.str s =>
          if s.length == 0 then
            Except.error (JSError.argumentError
              ("The provided base URL is invalid"))
          else
            Except.ok (buildManager s options)
        | _ =>
          Except.error (JSError.argumentError
            ("The provided base URL is invalid"))

/-- One segment of an endpoint template: a fixed path segment or a named
path placeholder (written :name in the template string). -/
inductive Segment : Type where
  | fixed : String → Segment
  | param : String → Segment
deriving DecidableEq

/-- Whether a segment is a placeholder. -/
def Segment.isParam : Segment → Bool
  | Segment.fixed _ => false
  | Segment.param _ => true

/-- Split a character list on the path separator. -/
def splitSlashAux : List Char → String → List String
  | [], acc => [acc]
  | c :: cs, acc =>
      if c = ('/' : Char) then acc :: splitSlashAux cs ("")
      else splitSlashAux cs (acc.push c)

/-- Classify one path segment of a template: a leading colon marks a
placeholder with the remaining characters as its name. -/
def classifySeg (seg : String) : Segment :=
  match seg.data with
  | ':' :: rest => Segment.param (String.mk rest)
  | _ => Segment.fixed seg

/-- Parse a template suffix such as /organizations/:id into its segments,
dropping empty segments produced by the leading separator. -/
def parseTemplate (tmpl : String) : List Segment :=
  ((splitSlashAux tmpl.data ("")).filter (fun s => s != (""))).map classifySeg

/-- Modelled from the spec: template resolution of the rest-facade
Templated Resource Client, which is not among the repository sources
shown.  Scanning placeholders left to right, a placeholder with a
non-empty value is substituted; a placeholder with no value is dropped
together with its separator when it is trailing (nothing but further
placeholders follows it), and is a resolution error otherwise. -/
def resolveSegs : List Segment → (String → Option String) → Option String
  | [], _ => some ("")
  | Segment.fixed s :: rest, m =>
      (resolveSegs rest m).map (fun r => ("/") ++ s ++ r)
  | Segment.param n :: rest, m =>
      match m n with
      | some v => (resolveSegs rest m).map (fun r => ("/") ++ v ++ r)
      | none =>
          if rest.all Segment.isParam then resolveSegs rest m
          else none

/-- Modelled from the spec: the value a parameter mapping supplies for a
placeholder name — the caller's params field of that name when it is a
non-empty string (empty string identifiers are treated as missing);
numeric identifiers are forwarded in decimal form. -/
def paramValue (params : JSValue) (name : String) : Option String :=
  match objGet params name with
  | JSValue.str s => if s == ("") then none else some s
  | JSValue.num n => some (toString n)
  | _ => none

/-- Resolve a template suffix against a params object. -/
def resolveTemplate (tmpl : String) (params : JSValue) : Option String :=
  resolveSegs (parseTemplate tmpl) (paramValue params)

/-- How a call returns to the caller: a pending promise, or undefined
(fire-and-report, the completion callback carries the result). -/
inductive RetStyle : Type where
  | promise : RetStyle
  | undefReturn : RetStyle
deriving DecidableEq

/-- One call issued to a wrapped rest client: which of the manager's three
clients received it, the verb invoked on it, the argument list forwarded
to the verb, and the request path the client's template resolves to for
the first argument (none when resolution fails). -/
structure ClientCall : Type where
  clientName : String
  verb : String
  args : List JSValue
  resolvedPath : Option String

/-- The outcome of invoking one manager operation: a synchronous throw, a
promise rejection, an error delivered through the completion callback, or
a dispatch of a list of client calls together with the return style.  The
middle two shapes exist so that theorems can state that validation errors
are never delivered through them. -/
inductive MethodOutcome : Type where
  | syncThrow : JSError → MethodOutcome
  | promiseRejected : JSError → MethodOutcome
  | callbackError : JSError → MethodOutcome
  | dispatched : List ClientCall → RetStyle → MethodOutcome

/-- The first argument of a call (the params object), undefined when the
argument list is empty. -/
def firstArg : List JSValue → JSValue
  | [] => JSValue.undef
  | a :: _ => a

/-- The final argument of a call, undefined when the argument list is
empty; a function in this position is the completion callback. -/
def lastArg : List JSValue → JSValue
  | [] => JSValue.undef
  | [a] => a
  | _ :: b :: rest => lastArg (b :: rest)

/-- Modelled from the spec: invoking one verb of a Retry-Decorated
Templated Resource Client (Auth0RestClient wrapped in RetryRestClient;
neither is among the repository sources shown).  The client resolves its
template against the first argument's path parameters and issues exactly
one call; supplying a callback as the final argument switches the call to
fire-and-report (return undefined), otherwise a pending promise is
returned. -/
def restVerbCall (clientName : String) (client : RetryRestClient)
    (verb : String) (args : List JSValue) : MethodOutcome :=
  MethodOutcome.dispatched
    [ { clientName := clientName, verb := verb, args := args,
        resolvedPath :=
          resolveTemplate client.restClient.path (firstArg args) } ]
    (if isFunction (lastArg args) then RetStyle.undefReturn
    else RetStyle.promise)

/-- The delegations installed on the manager prototype by the five
utils.wrapPropertyMethod lines of the source (lines 95, 126, 149, 186 and
209): method name, target client and target verb.  Note the update method
is wired to the patch verb of the organization client. -/
def wrappedDelegations : List (String × String × String) :=
  [ (("create"), (("organizations"), ("create"))),
    (("getAll"), (("organizations"), ("getAll"))),
    (("get"), (("organizations"), ("get"))),
    (("update"), (("organizations"), ("patch"))),
    (("delete"), (("organizations"), ("delete"))) ]

/-- The manager's client of a given name. -/
def clientOfName (self : OrganizationsManager) : String → RetryRestClient
  | ("connections") => self.connections
  | ("members") => self.members
  | _ => self.organizations

/-- Modelled from the spec: utils.wrapPropertyMethod (../utils, not among
the repository sources shown) re-exposes a client verb on the manager,
forwarding the caller's arguments unchanged to the target client's verb.
Returns none for a method name the source does not install. -/
def wrappedMethodCall (self : OrganizationsManager) (methodName : String)
    (args : List JSValue) : Option MethodOutcome :=
  (wrappedDelegations.lookup methodName).map (fun target =>
    restVerbCall target.1 (clientOfName self target.1) target.2 args)

/-- getEnabledConnections (source lines 232-234): unguarded delegation to
the connections client's getAll verb. -/
def OrganizationsManager.getEnabledConnections (self : OrganizationsManager)
    (params callback : JSValue) : MethodOutcome :=
  restVerbCall ("connections") self.connections ("getAll") [params, callback]

/-- getEnabledConnection (source lines 257-259): unguarded delegation to
the connections client's get verb. -/
def OrganizationsManager.getEnabledConnection (self : OrganizationsManager)
    (params callback : JSValue) : MethodOutcome :=
  restVerbCall ("connections") self.connections ("get") [params, callback]

/-- addEnabledConnection (source lines 286-303): defaults data and params
to empty objects, validates params.id (truthy, then string), then issues
one create call on the connections client, passing the callback through
when one was supplied as a function. -/
def OrganizationsManager.addEnabledConnection (self : OrganizationsManager)
    (params0 data0 cb : JSValue) : MethodOutcome :=
  let data := jsOr data0 (JSValue.obj [])
  let params := jsOr params0 (JSValue.obj [])
  match getField params ("id") with
  | Except.error e => MethodOutcome.syncThrow e
  | Except.ok idv =>
    if !(truthy idv) then
      MethodOutcome.syncThrow (JSError.argumentError
        ("The organizationId passed in params cannot be null or undefined"))
    else if !(jsTypeof idv == ("string")) then
      MethodOutcome.syncThrow (JSError.argumentError
        ("The organization Id has to be a string"))
    else if truthy cb && isFunction cb then
      restVerbCall ("connections") self.connections ("create")
        [params, data, cb]
    else
      restVerbCall ("connections") self.connections ("create") [params, data]

/-- removeEnabledConnection (source lines 327-349): defaults params to an
empty object, validates params.id and params.connection_id (truthy, then
string, each), then issues one delete call on the connections client with
an empty object as the body, passing the callback through when one was
supplied as a function. -/
def OrganizationsManager.removeEnabledConnection
    (self : OrganizationsManager) (params0 cb : JSValue) : MethodOutcome :=
  let params := jsOr params0 (JSValue.obj [])
  match getField params ("id") with
  | Except.error e => MethodOutcome.syncThrow e
  | Except.ok idv =>
    if !(truthy idv) then
      MethodOutcome.syncThrow (JSError.argumentError
        ("The organization ID passed in params cannot be null or undefined"))
    else if !(jsTypeof idv == ("string")) then
      MethodOutcome.syncThrow (JSError.argumentError
        ("The organization ID has to be a string"))
    else
      match getField params ("connection_id") with
      | Except.error e => MethodOutcome.syncThrow e
      | Except.ok cid =>
        if !(truthy cid) then
          MethodOutcome.syncThrow (JSError.argumentError
            ("The connection ID passed in params cannot be null or undefined"))
        else if !(jsTypeof cid == ("string")) then
          MethodOutcome.syncThrow (JSError.argumentError
            ("The connection ID has to be a string"))
        else if truthy cb && isFunction cb then
          restVerbCall ("connections") self.connections ("delete")
            [params, JSValue.obj [], cb]
        else
          restVerbCall ("connections") self.connections ("delete")
            [params, JSValue.obj []]

/-- The return style of an outcome when it dispatched, none when the
operation threw instead of returning. -/
def retWhenDispatched : MethodOutcome → Option RetStyle
  | MethodOutcome.dispatched _ r => some r
  | _ => none

/-- Options fixture: a well-formed options object. -/
def sampleOptions : JSValue :=
  JSValue.obj [(("baseUrl"), JSValue.str ("https://tenant.auth0.com/api/v2"))]

/-- The manager the constructor builds from the options fixture. -/
def sampleManager : OrganizationsManager :=
  buildManager ("https://tenant.auth0.com/api/v2") sampleOptions

/-! Helper lemmas shared by the claim theorems. -/

theorem string_length_eq_zero_iff (s : String) : s.length = 0 ↔ s = ("") := by
  constructor
  · intro h
    cases s with
    | mk data =>
      cases data with
      | nil => rfl
      | cons a as => simp [String.length] at h
  · intro h; rw [h]; rfl

theorem isNullOrUndef_jsOr_obj (p : JSValue) (l : List (String × JSValue)) :
    isNullOrUndef (jsOr p (JSValue.obj l)) = false := by
  unfold jsOr
  split
  · next hp => cases p <;> first | rfl | simp [truthy] at hp
  · rfl

theorem getField_not_null (v : JSValue) (k : String)
    (h : isNullOrUndef v = false) :
    getField v k = Except.ok (objGet v k) := by
  cases v <;> first | rfl | simp [isNullOrUndef] at h

theorem truthy_of_isFunction (v : JSValue) (h : isFunction v = true) :
    truthy v = true := by
  cases v <;> first | rfl | simp [isFunction] at h

theorem isFunction_jsOr_obj (d : JSValue) (l : List (String × JSValue))
    (h : isFunction d = false) :
    isFunction (jsOr d (JSValue.obj l)) = false := by
  unfold jsOr
  split
  · exact h
  · rfl

theorem mk_ok_shape (options : JSValue) (mgr : OrganizationsManager)
    (h : mkOrganizationsManager options = Except.ok mgr) :
    ∃ fields s, options = JSValue.obj fields ∧
      objGet options ("baseUrl") = JSValue.str s ∧ s ≠ ("") ∧
      mgr = buildManager s options := by
  cases options with
  | obj fields =>
    simp only [mkOrganizationsManager, isNullValue, jsTypeof, getField,
      Bool.false_or, beq_self_eq_true, Bool.not_true, Bool.false_eq_true,
      if_false, ite_false] at h
    cases hb : objGet (JSValue.obj fields) ("baseUrl") with
    | str s =>
      rw [hb] at h
      simp only [isNullOrUndef, Bool.false_eq_true, if_false, ite_false] at h
      split at h
      · exact absurd h (by simp)
      · next hlen =>
        refine ⟨fields, s, rfl, rfl, ?_, ?_⟩
        · intro hs
          exact hlen (by rw [hs]; rfl)
        · injection h with h2
          exact h2.symm
    | undef => rw [hb] at h; simp [isNullOrUndef] at h
    | null => rw [hb] at h; simp [isNullOrUndef] at h
    | bool b => rw [hb] at h; simp [isNullOrUndef] at h
    | num n => rw [hb] at h; simp [isNullOrUndef] at h
    | obj l => rw [hb] at h; simp [isNullOrUndef] at h
    | fn i => rw [hb] at h; simp [isNullOrUndef] at h
  | undef => simp [mkOrganizationsManager, isNullValue, jsTypeof] at h
  | null => simp [mkOrganizationsManager, isNullValue, jsTypeof] at h
  | bool b => simp [mkOrganizationsManager, isNullValue, jsTypeof] at h
  | num n => simp [mkOrganizationsManager, isNullValue, jsTypeof] at h
  | str s => simp [mkOrganizationsManager, isNullValue, jsTypeof] at h
  | fn i => simp [mkOrganizationsManager, isNullValue, jsTypeof] at h

theorem mk_ok_of_shape (fields : List (String × JSValue)) (s : String)
    (hb : objGet (JSValue.obj fields) ("baseUrl") = JSValue.str s)
    (hs : s ≠ ("")) :
    mkOrganizationsManager (JSValue.obj fields) =
      Except.ok (buildManager s (JSValue.obj fields)) := by
  have hlen : (s.length == 0) = false := by
    simp only [beq_eq_false_iff_ne, ne_eq]
    intro h0
    exact hs ((string_length_eq_zero_iff s).mp h0)
  simp [mkOrganizationsManager, isNullValue, jsTypeof, getField, hb,
    isNullOrUndef, hlen]

theorem mk_error_is_argumentError (options : JSValue) (e : JSError)
    (he : mkOrganizationsManager options = Except.error e) :
    ∃ msg, e = JSError.argumentError msg := by
  cases options with
    | obj fields =>
      simp only [mkOrganizationsManager, isNullValue, jsTypeof, getField,
        beq_self_eq_true, Bool.not_true, Bool.false_or, Bool.false_eq_true,
        if_false] at he
      cases hb : objGet (JSValue.obj fields) ("baseUrl") with
      | str s =>
        rw [hb] at he
        simp only [isNullOrUndef, Bool.false_eq_true, if_false] at he
        split at he
        · injection he with h2
          exact ⟨_, h2.symm⟩
        · exact absurd he (by simp)
      | undef =>
        rw [hb] at he; simp [isNullOrUndef] at he
        exact ⟨_, he.symm⟩
      | null =>
        rw [hb] at he; simp [isNullOrUndef] at he
        exact ⟨_, he.symm⟩
      | bool b =>
        rw [hb] at he; simp [isNullOrUndef] at he
        exact ⟨_, he.symm⟩
      | num n =>
        rw [hb] at he; simp [isNullOrUndef] at he
        exact ⟨_, he.symm⟩
      | obj l =>
        rw [hb] at he; simp [isNullOrUndef] at he
        exact ⟨_, he.symm⟩
      | fn i =>
        rw [hb] at he; simp [isNullOrUndef] at he
        exact ⟨_, he.symm⟩
    | undef =>
      simp [mkOrganizationsManager, isNullValue, jsTypeof] at he
      exact ⟨_, he.symm⟩
    | null =>
      simp [mkOrganizationsManager, isNullValue, jsTypeof] at he
      exact ⟨_, he.symm⟩
    | bool b =>
      simp [mkOrganizationsManager, isNullValue, jsTypeof] at he
      exact ⟨_, he.symm⟩
    | num n =>
      simp [mkOrganizationsManager, isNullValue, jsTypeof] at he
      exact ⟨_, he.symm⟩
    | str s =>
      simp [mkOrganizationsManager, isNullValue, jsTypeof] at he
      exact ⟨_, he.symm⟩
    | fn i =>
      simp [mkOrganizationsManager, isNullValue, jsTypeof] at he
      exact ⟨_, he.symm⟩

/-- C1: construction throws ArgumentError for every options value that is
null or not an object and for every baseUrl field that is null, undefined,
not a string, or an empty string; it succeeds exactly when options is an
object whose baseUrl field is a non-empty string (so the documented method
surface of the manager is available); and every construction failure is an
ArgumentError, so no partially constructed manager is ever returned. -/
theorem organizationsManager_construction_validation (options : JSValue) :
    ((∃ mgr, mkOrganizationsManager options = Except.ok mgr) ↔
      ∃ fields s, options = JSValue.obj fields ∧
        objGet options ("baseUrl") = JSValue.str s ∧ s ≠ ("")) ∧
    ∀ e, mkOrganizationsManager options = Except.error e →
      ∃ msg, e = JSError.argumentError msg := by
  constructor
  · constructor
    · rintro ⟨mgr, hmgr⟩
      obtain ⟨fields, s, h1, h2, h3, _⟩ := mk_ok_shape options mgr hmgr
      exact ⟨fields, s, h1, h2, h3⟩
    · rintro ⟨fields, s, h1, h2, h3⟩
      subst h1
      exact ⟨_, mk_ok_of_shape fields s h2 h3⟩
  · exact mk_error_is_argumentError options

theorem addEnabledConnection_eq (mgr : OrganizationsManager)
    (params data cb : JSValue) :
    mgr.addEnabledConnection params data cb =
      (if !(truthy (objGet (jsOr params (JSValue.obj [])) ("id"))) then
        MethodOutcome.syncThrow (JSError.argumentError
          ("The organizationId passed in params cannot be null or undefined"))
      else if !(jsTypeof (objGet (jsOr params (JSValue.obj [])) ("id")) ==
          ("string")) then
        MethodOutcome.syncThrow (JSError.argumentError
          ("The organization Id has to be a string"))
      else if truthy cb && isFunction cb then
        restVerbCall ("connections") mgr.connections ("create")
          [jsOr params (JSValue.obj []), jsOr data (JSValue.obj []), cb]
      else
        restVerbCall ("connections") mgr.connections ("create")
          [jsOr params (JSValue.obj []), jsOr data (JSValue.obj [])]) := by
  simp only [OrganizationsManager.addEnabledConnection]
  rw [getField_not_null _ _ (isNullOrUndef_jsOr_obj params [])]

theorem removeEnabledConnection_eq (mgr : OrganizationsManager)
    (params cb : JSValue) :
    mgr.removeEnabledConnection params cb =
      (if !(truthy (objGet (jsOr params (JSValue.obj [])) ("id"))) then
        MethodOutcome.syncThrow (JSError.argumentError
          ("The organization ID passed in params cannot be null or undefined"))
      else if !(jsTypeof (objGet (jsOr params (JSValue.obj [])) ("id")) ==
          ("string")) then
        MethodOutcome.syncThrow (JSError.argumentError
          ("The organization ID has to be a string"))
      else if !(truthy (objGet (jsOr params (JSValue.obj []))
          ("connection_id"))) then
        MethodOutcome.syncThrow (JSError.argumentError
          ("The connection ID passed in params cannot be null or undefined"))
      else if !(jsTypeof (objGet (jsOr params (JSValue.obj []))
          ("connection_id")) == ("string")) then
        MethodOutcome.syncThrow (JSError.argumentError
          ("The connection ID has to be a string"))
      else if truthy cb && isFunction cb then
        restVerbCall ("connections") mgr.connections ("delete")
          [jsOr params (JSValue.obj []), JSValue.obj [], cb]
      else
        restVerbCall ("connections") mgr.connections ("delete")
          [jsOr params (JSValue.obj []), JSValue.obj []]) := by
  simp only [OrganizationsManager.removeEnabledConnection]
  rw [getField_not_null _ _ (isNullOrUndef_jsOr_obj params []),
    getField_not_null _ _ (isNullOrUndef_jsOr_obj params [])]

theorem addEnabledConnection_throws_of_bad_id (mgr : OrganizationsManager)
    (params data cb : JSValue)
    (hid : ∀ s, objGet (jsOr params (JSValue.obj [])) ("id") =
      JSValue.str s → s = ("")) :
    ∃ msg, mgr.addEnabledConnection params data cb =
      MethodOutcome.syncThrow (JSError.argumentError msg) := by
  rw [addEnabledConnection_eq]
  cases hb : objGet (jsOr params (JSValue.obj [])) ("id") with
  | str s =>
    have hs := hid s hb
    subst hs
    exact ⟨_, rfl⟩
  | undef => exact ⟨_, rfl⟩
  | null => exact ⟨_, rfl⟩
  | bool b => cases b <;> exact ⟨_, rfl⟩
  | num n =>
    by_cases hn : n = 0
    · subst hn; exact ⟨_, rfl⟩
    · have ht : (!truthy (JSValue.num n)) = false := by simp [truthy, hn]
      rw [ht]
      exact ⟨_, rfl⟩
  | obj l => exact ⟨_, rfl⟩
  | fn i => exact ⟨_, rfl⟩

theorem removeEnabledConnection_throws_of_bad_id (mgr : OrganizationsManager)
    (params cb : JSValue)
    (hid : ∀ s, objGet (jsOr params (JSValue.obj [])) ("id") =
      JSValue.str s → s = ("")) :
    ∃ msg, mgr.removeEnabledConnection params cb =
      MethodOutcome.syncThrow (JSError.argumentError msg) := by
  rw [removeEnabledConnection_eq]
  cases hb : objGet (jsOr params (JSValue.obj [])) ("id") with
  | str s =>
    have hs := hid s hb
    subst hs
    exact ⟨_, rfl⟩
  | undef => exact ⟨_, rfl⟩
  | null => exact ⟨_, rfl⟩
  | bool b => cases b <;> exact ⟨_, rfl⟩
  | num n =>
    by_cases hn : n = 0
    · subst hn; exact ⟨_, rfl⟩
    · have ht : (!truthy (JSValue.num n)) = false := by simp [truthy, hn]
      rw [ht]
      exact ⟨_, rfl⟩
  | obj l => exact ⟨_, rfl⟩
  | fn i => exact ⟨_, rfl⟩

/-- C2: addEnabledConnection throws ArgumentError synchronously, before
any client call, whenever params.id is not a non-empty string (covering a
missing id and a numeric id); and with params whose id is the string org1
it issues exactly one create call on the connections client, resolving to
the path /organizations/org1/enabled_connections. -/
theorem addEnabledConnection_validation_and_dispatch
    (mgr : OrganizationsManager)
    (hpath : mgr.connections.restClient.path = enabledConnectionsTemplate)
    (params data cb : JSValue) :
    ((∀ s, objGet (jsOr params (JSValue.obj [])) ("id") = JSValue.str s →
        s = ("")) →
      ∃ msg, mgr.addEnabledConnection params data cb =
        MethodOutcome.syncThrow (JSError.argumentError msg)) ∧
    (∃ c r, mgr.addEnabledConnection
        (JSValue.obj [(("id"), JSValue.str ("org1"))]) data cb =
        MethodOutcome.dispatched [c] r ∧
      c.clientName = ("connections") ∧ c.verb = ("create") ∧
      c.resolvedPath = some ("/organizations/org1/enabled_connections")) := by
  constructor
  · exact addEnabledConnection_throws_of_bad_id mgr params data cb
  · have hres : resolveTemplate mgr.connections.restClient.path
        (JSValue.obj [(("id"), JSValue.str ("org1"))]) =
        some ("/organizations/org1/enabled_connections") := by
      rw [hpath]; decide
    rw [addEnabledConnection_eq]
    by_cases hcb : (truthy cb && isFunction cb) = true
    · rw [if_pos hcb]
      refine ⟨_, _, rfl, rfl, rfl, ?_⟩
      exact hres
    · rw [if_neg hcb]
      refine ⟨_, _, rfl, rfl, rfl, ?_⟩
      exact hres

/-- C2 witness: a call with empty params throws ArgumentError. -/
theorem addEnabledConnection_validation_and_dispatch_witness :
    ∃ msg, sampleManager.addEnabledConnection (JSValue.obj [])
        (JSValue.obj []) JSValue.undef =
      MethodOutcome.syncThrow (JSError.argumentError msg) :=
  (addEnabledConnection_validation_and_dispatch sampleManager rfl
      (JSValue.obj []) (JSValue.obj []) JSValue.undef).1
    (fun s hs => by simp [jsOr, truthy, objGet] at hs)

/-- C3: removeEnabledConnection throws ArgumentError synchronously unless
both params.id and params.connection_id are non-empty strings; and with id
org1 and connection_id c1 it issues exactly one delete call on the
connections client with an empty object as the body, resolving to the path
/organizations/org1/enabled_connections/c1. -/
theorem removeEnabledConnection_validation_and_dispatch
    (mgr : OrganizationsManager)
    (hpath : mgr.connections.restClient.path = enabledConnectionsTemplate)
    (params cb : JSValue) :
    ((¬ ∃ s c, objGet (jsOr params (JSValue.obj [])) ("id") =
          JSValue.str s ∧ s ≠ ("") ∧
        objGet (jsOr params (JSValue.obj [])) ("connection_id") =
          JSValue.str c ∧ c ≠ ("")) →
      ∃ msg, mgr.removeEnabledConnection params cb =
        MethodOutcome.syncThrow (JSError.argumentError msg)) ∧
    (∃ c r, mgr.removeEnabledConnection
        (JSValue.obj [(("id"), JSValue.str ("org1")),
          (("connection_id"), JSValue.str ("c1"))]) cb =
        MethodOutcome.dispatched [c] r ∧
      c.clientName = ("connections") ∧ c.verb = ("delete") ∧
      c.resolvedPath = some ("/organizations/org1/enabled_connections/c1") ∧
      (c.args = [JSValue.obj [(("id"), JSValue.str ("org1")),
          (("connection_id"), JSValue.str ("c1"))], JSValue.obj []] ∨
        c.args = [JSValue.obj [(("id"), JSValue.str ("org1")),
          (("connection_id"), JSValue.str ("c1"))], JSValue.obj [], cb])) := by
  constructor
  · intro hbad
    by_cases hid : ∀ s, objGet (jsOr params (JSValue.obj [])) ("id") =
        JSValue.str s → s = ("")
    · exact removeEnabledConnection_throws_of_bad_id mgr params cb hid
    · push_neg at hid
      obtain ⟨s, hs1, hs2⟩ := hid
      rw [removeEnabledConnection_eq, hs1]
      have ht : (!truthy (JSValue.str s)) = false := by simp [truthy, hs2]
      rw [ht]
      cases hc : objGet (jsOr params (JSValue.obj [])) ("connection_id") with
      | str c =>
        have hcempty : c = ("") := by
          by_contra hcne
          exact hbad ⟨s, c, hs1, hs2, hc, hcne⟩
        subst hcempty
        exact ⟨_, rfl⟩
      | undef => exact ⟨_, rfl⟩
      | null => exact ⟨_, rfl⟩
      | bool b => cases b <;> exact ⟨_, rfl⟩
      | num n =>
        by_cases hn : n = 0
        · subst hn; exact ⟨_, rfl⟩
        · have htn : (!truthy (JSValue.num n)) = false := by
            simp [truthy, hn]
          rw [htn]
          exact ⟨_, rfl⟩
      | obj l => exact ⟨_, rfl⟩
      | fn i => exact ⟨_, rfl⟩
  · have hres : resolveTemplate mgr.connections.restClient.path
        (JSValue.obj [(("id"), JSValue.str ("org1")),
          (("connection_id"), JSValue.str ("c1"))]) =
        some ("/organizations/org1/enabled_connections/c1") := by
      rw [hpath]; decide
    rw [removeEnabledConnection_eq]
    by_cases hcb : (truthy cb && isFunction cb) = true
    · rw [if_pos hcb]
      refine ⟨_, _, rfl, rfl, rfl, ?_, Or.inr rfl⟩
      exact hres
    · rw [if_neg hcb]
      refine ⟨_, _, rfl, rfl, rfl, ?_, Or.inl rfl⟩
      exact hres

/-- C3 witness: the dispatch side at the constructed sample manager with
the callback omitted. -/
theorem removeEnabledConnection_validation_and_dispatch_witness :
    ∃ c r, sampleManager.removeEnabledConnection
        (JSValue.obj [(("id"), JSValue.str ("org1")),
          (("connection_id"), JSValue.str ("c1"))]) JSValue.undef =
        MethodOutcome.dispatched [c] r ∧
      c.clientName = ("connections") ∧ c.verb = ("delete") ∧
      c.resolvedPath = some ("/organizations/org1/enabled_connections/c1") ∧
      (c.args = [JSValue.obj [(("id"), JSValue.str ("org1")),
          (("connection_id"), JSValue.str ("c1"))], JSValue.obj []] ∨
        c.args = [JSValue.obj [(("id"), JSValue.str ("org1")),
          (("connection_id"), JSValue.str ("c1"))], JSValue.obj [],
          JSValue.undef]) :=
  (removeEnabledConnection_validation_and_dispatch sampleManager rfl
      (JSValue.obj []) JSValue.undef).2

/-- Modelled from the spec: the HTTP method behind each verb of the
rest-facade client (the client is not among the repository sources shown):
create issues POST, getAll and get issue GET, update issues PUT (full
replacement), patch issues PATCH (partial update: only supplied fields
change on the remote resource), delete issues DELETE. -/
def verbHttpMethod : String → String
  | ("create") => ("POST")
  | ("getAll") => ("GET")
  | ("get") => ("GET")
  | ("update") => ("PUT")
  | ("patch") => ("PATCH")
  | ("delete") => ("DELETE")
  | _ => ("GET")

/-- Whether an HTTP method carries partial-update semantics. -/
def isPartialUpdate (m : String) : Bool := m == ("PATCH")

/-- C4 counterexample: the manager's update method is wired to the
organization client's patch verb, not to its update verb, so the claimed
delegation target fails on the code. -/
theorem update_not_wired_to_update_verb :
    wrappedDelegations.lookup ("update") =
      some ((("organizations"), ("patch"))) ∧
    wrappedDelegations.lookup ("update") ≠
      some ((("organizations"), ("update"))) := by
  constructor
  · rfl
  · intro h
    rw [show wrappedDelegations.lookup ("update") =
      some ((("organizations"), ("patch"))) from rfl] at h
    simp at h

/-- C4 (amended): update(params, data, cb) delegates to the organization
client's patch verb, whose HTTP method PATCH carries partial-update
semantics (only supplied fields change on the remote resource), forwarding
the arguments unchanged. -/
theorem update_delegates_to_patch (mgr : OrganizationsManager)
    (params data cb : JSValue) :
    ∃ c r, wrappedMethodCall mgr ("update") [params, data, cb] =
        some (MethodOutcome.dispatched [c] r) ∧
      c.clientName = ("organizations") ∧ c.verb = ("patch") ∧
      c.args = [params, data, cb] ∧
      isPartialUpdate (verbHttpMethod c.verb) = true := by
  refine ⟨_, _, rfl, rfl, rfl, rfl, rfl⟩

/-- C5: for the two guarded calls, a validation failure is a synchronous
throw for every callback argument: the outcome is never a promise
rejection and never an error passed to the callback, and an invalid
organization id makes both calls throw ArgumentError no matter what
callback was supplied; constructor validation failures are likewise
synchronous ArgumentError throws. -/
theorem validation_failures_throw_synchronously (mgr : OrganizationsManager)
    (params data cb : JSValue) :
    ((∀ e, mgr.addEnabledConnection params data cb ≠
        MethodOutcome.promiseRejected e) ∧
      (∀ e, mgr.addEnabledConnection params data cb ≠
        MethodOutcome.callbackError e) ∧
      (∀ e, mgr.removeEnabledConnection params cb ≠
        MethodOutcome.promiseRejected e) ∧
      (∀ e, mgr.removeEnabledConnection params cb ≠
        MethodOutcome.callbackError e)) ∧
    ((∀ s, objGet (jsOr params (JSValue.obj [])) ("id") = JSValue.str s →
        s = ("")) →
      (∃ msg, mgr.addEnabledConnection params data cb =
        MethodOutcome.syncThrow (JSError.argumentError msg)) ∧
      (∃ msg, mgr.removeEnabledConnection params cb =
        MethodOutcome.syncThrow (JSError.argumentError msg))) ∧
    (∀ opts e, mkOrganizationsManager opts = Except.error e →
      ∃ msg, e = JSError.argumentError msg) := by
  refine ⟨⟨?_, ?_, ?_, ?_⟩, ?_, ?_⟩
  · intro e h
    rw [addEnabledConnection_eq] at h
    repeat' split at h
    all_goals simp [restVerbCall] at h
  · intro e h
    rw [addEnabledConnection_eq] at h
    repeat' split at h
    all_goals simp [restVerbCall] at h
  · intro e h
    rw [removeEnabledConnection_eq] at h
    repeat' split at h
    all_goals simp [restVerbCall] at h
  · intro e h
    rw [removeEnabledConnection_eq] at h
    repeat' split at h
    all_goals simp [restVerbCall] at h
  · intro hid
    exact ⟨addEnabledConnection_throws_of_bad_id mgr params data cb hid,
      removeEnabledConnection_throws_of_bad_id mgr params cb hid⟩
  · exact fun opts e he => mk_error_is_argumentError opts e he

/-- C6: for every operation of the manager, supplying a function callback
as the final argument makes a dispatching call return undefined (never a
pending promise), and omitting the callback makes a dispatching call
return a pending promise (never undefined); exactly one of the two styles
is active per call. -/
theorem callback_selects_fire_and_report (mgr : OrganizationsManager)
    (params data cb : JSValue) (hcb : isFunction cb = true)
    (hp : isFunction params = false) (hd : isFunction data = false) :
    (((wrappedMethodCall mgr ("create") [data, cb]).map retWhenDispatched =
        some (some RetStyle.undefReturn)) ∧
      ((wrappedMethodCall mgr ("getAll") [params, cb]).map retWhenDispatched =
        some (some RetStyle.undefReturn)) ∧
      ((wrappedMethodCall mgr ("get") [params, cb]).map retWhenDispatched =
        some (some RetStyle.undefReturn)) ∧
      ((wrappedMethodCall mgr ("update") [params, data, cb]).map
          retWhenDispatched = some (some RetStyle.undefReturn)) ∧
      ((wrappedMethodCall mgr ("delete") [params, cb]).map retWhenDispatched =
        some (some RetStyle.undefReturn)) ∧
      retWhenDispatched (mgr.getEnabledConnections params cb) =
        some RetStyle.undefReturn ∧
      retWhenDispatched (mgr.getEnabledConnection params cb) =
        some RetStyle.undefReturn ∧
      retWhenDispatched (mgr.addEnabledConnection params data cb) ≠
        some RetStyle.promise ∧
      retWhenDispatched (mgr.removeEnabledConnection params cb) ≠
        some RetStyle.promise) ∧
    (((wrappedMethodCall mgr ("create") [data]).map retWhenDispatched =
        some (some RetStyle.promise)) ∧
      ((wrappedMethodCall mgr ("getAll") [params]).map retWhenDispatched =
        some (some RetStyle.promise)) ∧
      ((wrappedMethodCall mgr ("get") [params]).map retWhenDispatched =
        some (some RetStyle.promise)) ∧
      ((wrappedMethodCall mgr ("update") [params, data]).map
          retWhenDispatched = some (some RetStyle.promise)) ∧
      ((wrappedMethodCall mgr ("delete") [params]).map retWhenDispatched =
        some (some RetStyle.promise)) ∧
      retWhenDispatched (mgr.getEnabledConnections params JSValue.undef) =
        some RetStyle.promise ∧
      retWhenDispatched (mgr.getEnabledConnection params JSValue.undef) =
        some RetStyle.promise ∧
      retWhenDispatched (mgr.addEnabledConnection params data JSValue.undef) ≠
        some RetStyle.undefReturn ∧
      retWhenDispatched (mgr.removeEnabledConnection params JSValue.undef) ≠
        some RetStyle.undefReturn) := by
  have htr : truthy cb = true := truthy_of_isFunction cb hcb
  have hcband : (truthy cb && isFunction cb) = true := by
    simp [htr, hcb]
  have hnocb : ¬((truthy JSValue.undef && isFunction JSValue.undef) = true) := by
    simp [truthy]
  have hdj : isFunction (jsOr data (JSValue.obj [])) = false :=
    isFunction_jsOr_obj data [] hd
  refine ⟨⟨?_, ?_, ?_, ?_, ?_, ?_, ?_, ?_, ?_⟩,
    ⟨?_, ?_, ?_, ?_, ?_, ?_, ?_, ?_, ?_⟩⟩
  · rw [show wrappedMethodCall mgr ("create") [data, cb] =
      some (restVerbCall ("organizations") mgr.organizations ("create")
        [data, cb]) from rfl]
    simp [restVerbCall, retWhenDispatched, lastArg, hcb]
  · rw [show wrappedMethodCall mgr ("getAll") [params, cb] =
      some (restVerbCall ("organizations") mgr.organizations ("getAll")
        [params, cb]) from rfl]
    simp [restVerbCall, retWhenDispatched, lastArg, hcb]
  · rw [show wrappedMethodCall mgr ("get") [params, cb] =
      some (restVerbCall ("organizations") mgr.organizations ("get")
        [params, cb]) from rfl]
    simp [restVerbCall, retWhenDispatched, lastArg, hcb]
  · rw [show wrappedMethodCall mgr ("update") [params, data, cb] =
      some (restVerbCall ("organizations") mgr.organizations ("patch")
        [params, data, cb]) from rfl]
    simp [restVerbCall, retWhenDispatched, lastArg, hcb]
  · rw [show wrappedMethodCall mgr ("delete") [params, cb] =
      some (restVerbCall ("organizations") mgr.organizations ("delete")
        [params, cb]) from rfl]
    simp [restVerbCall, retWhenDispatched, lastArg, hcb]
  · simp [OrganizationsManager.getEnabledConnections, restVerbCall,
      retWhenDispatched, lastArg, hcb]
  · simp [OrganizationsManager.getEnabledConnection, restVerbCall,
      retWhenDispatched, lastArg, hcb]
  · rw [addEnabledConnection_eq]
    simp only [hcband, eq_self_iff_true, if_true]
    repeat' split
    all_goals simp [restVerbCall, retWhenDispatched, lastArg, hcb]
  · rw [removeEnabledConnection_eq]
    simp only [hcband, eq_self_iff_true, if_true]
    repeat' split
    all_goals simp [restVerbCall, retWhenDispatched, lastArg, hcb]
  · rw [show wrappedMethodCall mgr ("create") [data] =
      some (restVerbCall ("organizations") mgr.organizations ("create")
        [data]) from rfl]
    simp [restVerbCall, retWhenDispatched, lastArg, hd]
  · rw [show wrappedMethodCall mgr ("getAll") [params] =
      some (restVerbCall ("organizations") mgr.organizations ("getAll")
        [params]) from rfl]
    simp [restVerbCall, retWhenDispatched, lastArg, hp]
  · rw [show wrappedMethodCall mgr ("get") [params] =
      some (restVerbCall ("organizations") mgr.organizations ("get")
        [params]) from rfl]
    simp [restVerbCall, retWhenDispatched, lastArg, hp]
  · rw [show wrappedMethodCall mgr ("update") [params, data] =
      some (restVerbCall ("organizations") mgr.organizations ("patch")
        [params, data]) from rfl]
    simp [restVerbCall, retWhenDispatched, lastArg, hd]
  · rw [show wrappedMethodCall mgr ("delete") [params] =
      some (restVerbCall ("organizations") mgr.organizations ("delete")
        [params]) from rfl]
    simp [restVerbCall, retWhenDispatched, lastArg, hp]
  · simp [OrganizationsManager.getEnabledConnections, restVerbCall,
      retWhenDispatched, lastArg, isFunction]
  · simp [OrganizationsManager.getEnabledConnection, restVerbCall,
      retWhenDispatched, lastArg, isFunction]
  · rw [addEnabledConnection_eq]
    simp only [show (truthy JSValue.undef && isFunction JSValue.undef) =
      false from rfl, Bool.false_eq_true, if_false]
    repeat' split
    all_goals simp [restVerbCall, retWhenDispatched, lastArg, hdj]
  · rw [removeEnabledConnection_eq]
    simp only [show (truthy JSValue.undef && isFunction JSValue.undef) =
      false from rfl, Bool.false_eq_true, if_false]
    repeat' split
    all_goals simp [restVerbCall, retWhenDispatched, lastArg, isFunction]

/-- C6 witness: with a function callback the create operation returns
undefined. -/
theorem callback_selects_fire_and_report_witness :
    (wrappedMethodCall sampleManager ("create")
        [JSValue.obj [], JSValue.fn 0]).map retWhenDispatched =
      some (some RetStyle.undefReturn) :=
  (callback_selects_fire_and_report sampleManager (JSValue.obj [])
      (JSValue.obj []) (JSValue.fn 0) rfl rfl rfl).1.1

/-- C7: construction builds exactly the three retry-decorated clients,
bound to the fixed templates /organizations/:id,
/organizations/:id/enabled_connections/:connection_id and
/organizations/:id/members, each rooted at the supplied baseUrl (the
templates are fixed by the constructor, not configurable per call), and
each carrying the options retry configuration into its decorator. -/
theorem construction_builds_three_templated_clients (options : JSValue)
    (mgr : OrganizationsManager)
    (h : mkOrganizationsManager options = Except.ok mgr) :
    ∃ s, objGet options ("baseUrl") = JSValue.str s ∧
      mgr.organizations.restClient.baseUrl = s ∧
      mgr.organizations.restClient.path = organizationsTemplate ∧
      mgr.organizations.restClient.resourceUrl = s ++ organizationsTemplate ∧
      mgr.organizations.retryConfig = objGet options ("retry") ∧
      mgr.connections.restClient.baseUrl = s ∧
      mgr.connections.restClient.path = enabledConnectionsTemplate ∧
      mgr.connections.restClient.resourceUrl =
        s ++ enabledConnectionsTemplate ∧
      mgr.connections.retryConfig = objGet options ("retry") ∧
      mgr.members.restClient.baseUrl = s ∧
      mgr.members.restClient.path = membersTemplate ∧
      mgr.members.restClient.resourceUrl = s ++ membersTemplate ∧
      mgr.members.retryConfig = objGet options ("retry") := by
  obtain ⟨fields, s, hobj, hb, hne, hmgr⟩ := mk_ok_shape options mgr h
  subst hmgr
  exact ⟨s, hb, rfl, rfl, rfl, rfl, rfl, rfl, rfl, rfl, rfl, rfl, rfl, rfl⟩

/-- C7 witness: the sample construction binds the connections client to
the enabled-connections template. -/
theorem construction_builds_three_templated_clients_witness :
    sampleManager.connections.restClient.path = enabledConnectionsTemplate :=
  Exists.elim (construction_builds_three_templated_clients sampleOptions
      sampleManager rfl)
    (fun _ hs => hs.2.2.2.2.2.2.1)

/-- C8: getEnabledConnections and getEnabledConnection perform no
manager-level validation: for every params and callback (including params
missing id or connection_id) each delegates exactly one call to the
connections client (getAll respectively get) with the arguments passed
through unchanged, and neither ever throws an error. -/
theorem enabled_connection_getters_passthrough (mgr : OrganizationsManager)
    (params callback : JSValue) :
    (∃ c r, mgr.getEnabledConnections params callback =
        MethodOutcome.dispatched [c] r ∧
      c.clientName = ("connections") ∧ c.verb = ("getAll") ∧
      c.args = [params, callback]) ∧
    (∃ c r, mgr.getEnabledConnection params callback =
        MethodOutcome.dispatched [c] r ∧
      c.clientName = ("connections") ∧ c.verb = ("get") ∧
      c.args = [params, callback]) ∧
    (∀ e, mgr.getEnabledConnections params callback ≠
      MethodOutcome.syncThrow e) ∧
    (∀ e, mgr.getEnabledConnection params callback ≠
      MethodOutcome.syncThrow e) := by
  refine ⟨⟨_, _, rfl, rfl, rfl, rfl⟩, ⟨_, _, rfl, rfl, rfl, rfl⟩, ?_, ?_⟩
  · intro e h
    simp [OrganizationsManager.getEnabledConnections, restVerbCall] at h
  · intro e h
    simp [OrganizationsManager.getEnabledConnection, restVerbCall] at h

theorem resolveTemplate_org_item (s : String) (h : s ≠ ("")) :
    resolveTemplate organizationsTemplate
      (JSValue.obj [(("id"), JSValue.str s)]) =
      some (("/organizations/") ++ s) := by
  have hv : paramValue (JSValue.obj [(("id"), JSValue.str s)]) ("id") =
      some s := by
    simp [paramValue, objGet, h]
  unfold resolveTemplate
  rw [show parseTemplate organizationsTemplate =
    [Segment.fixed ("organizations"), Segment.param ("id")] from by decide]
  simp only [resolveSegs, hv, Option.map]
  rw [String.append_empty, ← String.append_assoc]
  rfl

/-- C9: template resolution is a pure function — for each of the three
clients of a constructed manager, equal parameter mappings always resolve
to equal paths — and on the organization template the item form (get with
id X) resolves to /organizations/X while the collection form (getAll with
empty params) resolves to /organizations without it. -/
theorem template_resolution_pure_and_consistent (options : JSValue)
    (mgr : OrganizationsManager)
    (h : mkOrganizationsManager options = Except.ok mgr) :
    (∀ c, (c = mgr.organizations ∨ c = mgr.connections ∨ c = mgr.members) →
      ∀ p1 p2 : JSValue, p1 = p2 →
        resolveTemplate c.restClient.path p1 =
          resolveTemplate c.restClient.path p2) ∧
    (∀ s : String, s ≠ ("") →
      resolveTemplate mgr.organizations.restClient.path
        (JSValue.obj [(("id"), JSValue.str s)]) =
        some (("/organizations/") ++ s)) ∧
    resolveTemplate mgr.organizations.restClient.path (JSValue.obj []) =
      some ("/organizations") := by
  obtain ⟨fields, s0, hobj, hb, hne, hmgr⟩ := mk_ok_shape options mgr h
  subst hmgr
  refine ⟨?_, ?_, ?_⟩
  · intro c hc p1 p2 hp
    rw [hp]
  · intro s hs
    exact resolveTemplate_org_item s hs
  · exact (by decide :
      resolveTemplate organizationsTemplate (JSValue.obj []) =
        some ("/organizations"))

/-- C9 witness: the collection form at the sample manager. -/
theorem template_resolution_pure_and_consistent_witness :
    resolveTemplate sampleManager.organizations.restClient.path
      (JSValue.obj []) = some ("/organizations") :=
  (template_resolution_pure_and_consistent sampleOptions sampleManager
    rfl).2.2

/-- C10: calling addEnabledConnection or removeEnabledConnection with
params null or omitted (undefined) never raises a property-access
TypeError: params defaults to an empty object, so every such call throws
the ArgumentError about the missing organization ID, for every data and
callback argument. -/
theorem null_params_default_safely (mgr : OrganizationsManager)
    (data cb : JSValue) :
    (mgr.addEnabledConnection JSValue.null data cb =
      MethodOutcome.syncThrow (JSError.argumentError
        ("The organizationId passed in params cannot be null or undefined"))) ∧
    (mgr.addEnabledConnection JSValue.undef data cb =
      MethodOutcome.syncThrow (JSError.argumentError
        ("The organizationId passed in params cannot be null or undefined"))) ∧
    (mgr.removeEnabledConnection JSValue.null cb =
      MethodOutcome.syncThrow (JSError.argumentError
        ("The organization ID passed in params cannot be null or undefined"))) ∧
    (mgr.removeEnabledConnection JSValue.undef cb =
      MethodOutcome.syncThrow (JSError.argumentError
        ("The organization ID passed in params cannot be null or undefined"))) ∧
    (∀ m, mgr.addEnabledConnection JSValue.null data cb ≠
      MethodOutcome.syncThrow (JSError.typeError m)) ∧
    (∀ m, mgr.addEnabledConnection JSValue.undef data cb ≠
      MethodOutcome.syncThrow (JSError.typeError m)) ∧
    (∀ m, mgr.removeEnabledConnection JSValue.null cb ≠
      MethodOutcome.syncThrow (JSError.typeError m)) ∧
    (∀ m, mgr.removeEnabledConnection JSValue.undef cb ≠
      MethodOutcome.syncThrow (JSError.typeError m)) := by
  refine ⟨rfl, rfl, rfl, rfl, ?_, ?_, ?_, ?_⟩
  · intro m hm
    rw [show mgr.addEnabledConnection JSValue.null data cb =
      MethodOutcome.syncThrow (JSError.argumentError
        ("The organizationId passed in params cannot be null or undefined"))
      from rfl] at hm
    simp at hm
  · intro m hm
    rw [show mgr.addEnabledConnection JSValue.undef data cb =
      MethodOutcome.syncThrow (JSError.argumentError
        ("The organizationId passed in params cannot be null or undefined"))
      from rfl] at hm
    simp at hm
  · intro m hm
    rw [show mgr.removeEnabledConnection JSValue.null cb =
      MethodOutcome.syncThrow (JSError.argumentError
        ("The organization ID passed in params cannot be null or undefined"))
      from rfl] at hm
    simp at hm
  · intro m hm
    rw [show mgr.removeEnabledConnection JSValue.undef cb =
      MethodOutcome.syncThrow (JSError.argumentError
        ("The organization ID passed in params cannot be null or undefined"))
      from rfl] at hm
    simp at hm

end NodeAuth0
